import Mathlib

/-!
Shallow embedding of the power-state controller of the mpris-monitor
repository.  The repository contains several near-duplicate variants of the
same controller:

* `SystemController._update` in `mpris-monitor-kasa.py` (lines 171-235) and
  `SystemController.update` in `mpris-monitor-ir.py` (lines 113-179): the
  same control flow (the ir variant adds `is_alive()` checks on timers, which
  always succeed because the controller drops a timer reference whenever the
  timer is cancelled or fires); modelled here as `updateKasa`.
* `SystemController._update_state` in `mpris_monitor_kasa.py`
  (lines 205-272): same Playing and Stopped branches, but the Paused branch
  replaces the `assert(self.timer == None)` guard with an early return when
  the state is already Idle; modelled here as `updateState`.

The model is sequential: each `update` call and each timer expiry runs
atomically, in the order delivered, which is the serialisation the spec
mandates for the controller.  Machine effects are recorded in ghost
counters: `activations`/`deactivations` count calls of the external
`activate()`/`deactivate()` callbacks, `arms` counts `Timer(...).start()`
calls, and `orphans` counts timers that are still live (armed, not yet
cancelled and not yet fired) but no longer referenced by `self.timer`.
A Python `assert` failure is returned as `PyErr.assertionError` together
with the controller state as mutated up to the failing assert: the
exception unwinds out of the update call but the controller object (and the
surrounding process) lives on.
-/

namespace MprisMonitor

/-- The `SystemController.State` enumeration (ACTIVE / PAUSED / IDLE). -/
inductive PState
  | active
  | paused
  | idle
deriving DecidableEq

/-- Which configured duration a debounce timer was armed with: the long
(pause) interval or the short (stop) interval. -/
inductive TKind
  | long
  | short
deriving DecidableEq

/-- A debounce timer reference as held in `self.timer`: which arm site
created it and the duration (in seconds) passed to the timer constructor. -/
structure TimerRef where
  kind : TKind
  duration : Nat
deriving DecidableEq

/-- The state of one `SystemController` instance, plus ghost counters for
the observable effects (see the module comment). -/
structure Ctrl where
  shortTimeout : Nat
  longTimeout : Nat
  state : PState
  timer : Option TimerRef
  activePlayers : List String
  orphans : Nat
  activations : Nat
  deactivations : Nat
  arms : Nat
deriving DecidableEq

/-- Python exceptions that can escape an update call in this model. -/
inductive PyErr
  | assertionError
deriving DecidableEq

/-- Result of one update call: the controller state afterwards and the
exception, if any, that escaped the call. -/
structure UpdRes where
  ctrl : Ctrl
  err : Option PyErr
deriving DecidableEq

/-- Python `set.add`: membership-preserving insert into the active set. -/
def addPlayer (p : String) (l : List String) : List String :=
  if p ∈ l then l else p :: l

/-- Python `set.discard`: remove every occurrence, a no-op when absent. -/
def discardPlayer (p : String) (l : List String) : List String :=
  l.filter (fun q => q != p)

/-- Live timers at this instant: the referenced pending timer (if any) plus
any orphaned timers that were never cancelled. -/
def liveTimers (c : Ctrl) : Nat :=
  c.orphans + (if c.timer.isSome then 1 else 0)

/-- The `"Playing"` branch, shared verbatim by all controller variants:
add the sender to the active set; if the state was IDLE run `activate()`
(which itself sets the state to ACTIVE); set the state to ACTIVE; cancel
the pending timer if present and clear the reference. -/
def playingUpd (c : Ctrl) (sender : String) : UpdRes :=
  { ctrl :=
      if c.state = PState.idle then
        { c with activePlayers := addPlayer sender c.activePlayers,
                 activations := c.activations + 1,
                 state := PState.active,
                 timer := none }
      else
        { c with activePlayers := addPlayer sender c.activePlayers,
                 state := PState.active,
                 timer := none },
    err := none }

/-- The `"Paused"` branch of `mpris-monitor-kasa.py` / `mpris-monitor-ir.py`:
discard the sender; return if other players remain active; then
`assert(self.timer == None)`; arm the long timer and enter PAUSED. -/
def pausedUpdKasa (c : Ctrl) (sender : String) : UpdRes :=
  if discardPlayer sender c.activePlayers ≠ [] then
    { ctrl := { c with activePlayers := discardPlayer sender c.activePlayers },
      err := none }
  else if c.timer ≠ none then
    { ctrl := { c with activePlayers := discardPlayer sender c.activePlayers },
      err := some PyErr.assertionError }
  else
    { ctrl := { c with
                  activePlayers := discardPlayer sender c.activePlayers,
                  timer := some (TimerRef.mk TKind.long c.longTimeout),
                  arms := c.arms + 1,
                  state := PState.paused },
      err := none }

/-- The `"Paused"` branch of `mpris_monitor_kasa.py`: discard the sender;
return if other players remain active; return if the state is already IDLE;
arm the long timer and enter PAUSED.  There is no assert here: if a timer
was already pending its reference is overwritten without a cancel, so the
old timer stays live as an orphan. -/
def pausedUpdState (c : Ctrl) (sender : String) : UpdRes :=
  if discardPlayer sender c.activePlayers ≠ [] then
    { ctrl := { c with activePlayers := discardPlayer sender c.activePlayers },
      err := none }
  else if c.state = PState.idle then
    { ctrl := { c with activePlayers := discardPlayer sender c.activePlayers },
      err := none }
  else
    { ctrl := { c with
                  activePlayers := discardPlayer sender c.activePlayers,
                  orphans := c.orphans + (if c.timer.isSome then 1 else 0),
                  timer := some (TimerRef.mk TKind.long c.longTimeout),
                  arms := c.arms + 1,
                  state := PState.paused },
      err := none }

/-- The `"Stopped"` branch, shared verbatim by all controller variants:
discard the sender; return if other players remain active; return if the
state is IDLE; if the state is PAUSED, `assert(self.timer)` and cancel it;
otherwise return if a timer is already pending; arm the short timer.
The state field is not changed by this branch. -/
def stoppedUpd (c : Ctrl) (sender : String) : UpdRes :=
  if discardPlayer sender c.activePlayers ≠ [] then
    { ctrl := { c with activePlayers := discardPlayer sender c.activePlayers },
      err := none }
  else if c.state = PState.idle then
    { ctrl := { c with activePlayers := discardPlayer sender c.activePlayers },
      err := none }
  else if c.state = PState.paused then
    if c.timer = none then
      { ctrl := { c with activePlayers := discardPlayer sender c.activePlayers },
        err := some PyErr.assertionError }
    else
      { ctrl := { c with
                    activePlayers := discardPlayer sender c.activePlayers,
                    timer := some (TimerRef.mk TKind.short c.shortTimeout),
                    arms := c.arms + 1 },
        err := none }
  else if c.timer ≠ none then
    { ctrl := { c with activePlayers := discardPlayer sender c.activePlayers },
      err := none }
  else
    { ctrl := { c with
                  activePlayers := discardPlayer sender c.activePlayers,
                  timer := some (TimerRef.mk TKind.short c.shortTimeout),
                  arms := c.arms + 1 },
      err := none }

/-- `SystemController._update` of `mpris-monitor-kasa.py`, which is also
`SystemController.update` of `mpris-monitor-ir.py`.  Statuses outside
Playing / Paused / Stopped fall through the if/elif chain with no effect
and no error. -/
def updateKasa (c : Ctrl) (sender status : String) : UpdRes :=
  if status = "Playing" then playingUpd c sender
  else if status = "Paused" then pausedUpdKasa c sender
  else if status = "Stopped" then stoppedUpd c sender
  else { ctrl := c, err := none }

/-- `SystemController._update_state` of `mpris_monitor_kasa.py`; differs
from `updateKasa` only in the Paused branch. -/
def updateState (c : Ctrl) (sender status : String) : UpdRes :=
  if status = "Playing" then playingUpd c sender
  else if status = "Paused" then pausedUpdState c sender
  else if status = "Stopped" then stoppedUpd c sender
  else { ctrl := c, err := none }

/-- The `_deactivate` callback run when the pending debounce timer expires:
call the external `deactivate()`, set the state to IDLE, cancel and clear
the timer reference (the firing timer is the referenced one in every state
reachable in the kasa/ir variants). -/
def fireTimer (c : Ctrl) : Ctrl :=
  { c with deactivations := c.deactivations + 1,
           state := PState.idle,
           timer := none }

/-- `SystemController.__init__` of `mpris-monitor-kasa.py` and of
`mpris_monitor_kasa.py`: signature `(self, short_timeout, long_timeout)`;
state IDLE, no timer, empty active set. -/
def initController (short_timeout long_timeout : Nat) : Ctrl :=
  { shortTimeout := short_timeout, longTimeout := long_timeout,
    state := PState.idle, timer := none, activePlayers := [],
    orphans := 0, activations := 0, deactivations := 0, arms := 0 }

/-- `SystemController.__init__` of `mpris-monitor-ir.py`: signature
`(self, long, short)`. -/
def initControllerIR (long short : Nat) : Ctrl :=
  { shortTimeout := short, longTimeout := long,
    state := PState.idle, timer := none, activePlayers := [],
    orphans := 0, activations := 0, deactivations := 0, arms := 0 }

/-- The construction in `main` of `mpris-monitor-kasa.py` (line 299) and of
`mpris_monitor_kasa.py` (line 440):
`SystemController(args.stop_timeout, args.pause_timeout)` against the
`(short_timeout, long_timeout)` signature. -/
def mainControllerKasa (pause_timeout stop_timeout : Nat) : Ctrl :=
  initController stop_timeout pause_timeout

/-- The construction in `main` of `mpris-monitor-ir.py` (line 211):
`SystemController(args.stop_timeout, args.pause_timeout)` against the
`(long, short)` signature, so `long` receives the stop timeout and `short`
receives the pause timeout. -/
def mainControllerIR (pause_timeout stop_timeout : Nat) : Ctrl :=
  initControllerIR stop_timeout pause_timeout

/-- One atomic event at the controller of the kasa/ir variants: an update
call with arbitrary sender and status strings, or the expiry of the pending
debounce timer. -/
inductive CtrlStep : Ctrl → Ctrl → Prop
  | update (c : Ctrl) (sender status : String) :
      CtrlStep c (updateKasa c sender status).ctrl
  | fire (c : Ctrl) (h : c.timer.isSome) :
      CtrlStep c (fireTimer c)

/-- States of the kasa/ir controller reachable from the freshly constructed
(Idle) controller under any sequence of update calls and timer firings. -/
inductive ReachableCtrl (s l : Nat) : Ctrl → Prop
  | base : ReachableCtrl s l (initController s l)
  | next {c c2 : Ctrl} :
      ReachableCtrl s l c → CtrlStep c c2 → ReachableCtrl s l c2

/-- The inductive invariant of the kasa/ir controller: Idle has no timer and
an empty set; Paused always has a pending timer and an empty set; a
non-empty set forces Active with no timer; Active has a non-empty set or a
pending timer. -/
def CtrlInv (c : Ctrl) : Prop :=
  (c.state = PState.idle → c.timer = none ∧ c.activePlayers = []) ∧
  (c.state = PState.paused → c.timer.isSome ∧ c.activePlayers = []) ∧
  (c.activePlayers ≠ [] → c.state = PState.active ∧ c.timer = none) ∧
  (c.state = PState.active → c.activePlayers ≠ [] ∨ c.timer.isSome)

/-- Controller of the ir variant built with the argparse defaults
(pause timeout 60 s, stop timeout 5 s) after Playing then Paused from a
single player. -/
def irPausedRes : UpdRes :=
  updateKasa (updateKasa (mainControllerIR 60 5) "p" "Playing").ctrl "p" "Paused"

/-- Controller of the ir variant built with the argparse defaults after
Playing then Stopped from a single player. -/
def irStoppedRes : UpdRes :=
  updateKasa (updateKasa (mainControllerIR 60 5) "p" "Playing").ctrl "p" "Stopped"

/-- Controller of the kasa variant built with the argparse defaults after
Playing then Paused from a single player. -/
def kasaPausedRes : UpdRes :=
  updateKasa (updateKasa (mainControllerKasa 60 5) "p" "Playing").ctrl "p" "Paused"

/-- Controller of the kasa variant built with the argparse defaults after
Playing then Stopped from a single player. -/
def kasaStoppedRes : UpdRes :=
  updateKasa (updateKasa (mainControllerKasa 60 5) "p" "Playing").ctrl "p" "Stopped"

/-- State of the underscore variant after Playing, Paused, Paused from a
single player. -/
def c3DoublePaused : Ctrl :=
  (updateState (updateState (updateState (initController 5 60) "p" "Playing").ctrl
      "p" "Paused").ctrl "p" "Paused").ctrl

/-- Reachable state used to witness the C2 invariant: after one Playing
update. -/
def c2WitnessState : Ctrl := (updateKasa (initController 5 60) "p" "Playing").ctrl

/-- Reachable state after Playing, Paused, Stopped: still PAUSED but with
the short timer pending. -/
def c2PausedWithShortTimer : Ctrl :=
  (updateKasa (updateKasa (updateKasa (initController 5 60) "p" "Playing").ctrl
      "p" "Paused").ctrl "p" "Stopped").ctrl

/-- Reachable state after Playing, Stopped: still ACTIVE with an empty set
and the short timer pending. -/
def c2ActiveWithEmptySet : Ctrl :=
  (updateKasa (updateKasa (initController 5 60) "p" "Playing").ctrl "p" "Stopped").ctrl

/-- A Paused-state controller (long timer pending, empty set) used to
witness C5. -/
def c5Sample : Ctrl :=
  Ctrl.mk 5 60 PState.paused (some (TimerRef.mk TKind.long 60)) [] 0 1 0 1

/-- Reachable Paused state after Playing then Paused, used for the C5
counterexample. -/
def c5PausedState : Ctrl :=
  (updateKasa (updateKasa (initController 5 60) "q" "Playing").ctrl "q" "Paused").ctrl

/-- An Active single-player controller used to witness C6. -/
def c6Sample : Ctrl :=
  Ctrl.mk 5 60 PState.active none ["p"] 0 1 0 0

/-- First player name used to witness C7. -/
def c7SampleA : String := "playerA"

/-- Second player name used to witness C7. -/
def c7SampleB : String := "playerB"

/-- An Active two-player controller used to witness C7. -/
def c7Sample : Ctrl :=
  Ctrl.mk 5 60 PState.active none [c7SampleA, c7SampleB] 0 1 0 0

/-- Controller state after Playing then Paused from a single player, the
prefix of the C10 failing sequence. -/
def c10AfterPlayingPaused : UpdRes :=
  updateKasa (updateKasa (initController 5 60) "p" "Playing").ctrl "p" "Paused"

/-- Result of the second Paused update of the C10 failing sequence. -/
def c10SecondPaused : UpdRes :=
  updateKasa c10AfterPlayingPaused.ctrl "p" "Paused"

/-- Adding a player always leaves the set non-empty. -/
theorem addPlayer_ne_nil (p : String) (l : List String) : addPlayer p l ≠ [] := by
  unfold addPlayer
  split
  · exact List.ne_nil_of_mem (by assumption)
  · exact List.cons_ne_nil p l

/-- If discarding leaves a non-empty set, the set was non-empty. -/
theorem ne_nil_of_discard_ne_nil {p : String} {l : List String}
    (h : discardPlayer p l ≠ []) : l ≠ [] := by
  intro hl
  exact h (by simp [hl, discardPlayer])

/-- Discarding from the empty set yields the empty set. -/
theorem discard_nil (p : String) : discardPlayer p [] = [] := rfl

/-- Discarding an absent player leaves the set unchanged. -/
theorem discard_of_not_mem {p : String} {l : List String} (h : p ∉ l) :
    discardPlayer p l = l := by
  unfold discardPlayer
  apply List.filter_eq_self.mpr
  intro a ha
  simp only [bne_iff_ne, ne_eq]
  intro he
  exact h (he ▸ ha)

/-- A controller state that is neither IDLE nor PAUSED is ACTIVE. -/
theorem pstate_active_of {s : PState} (h1 : ¬ s = PState.idle)
    (h2 : ¬ s = PState.paused) : s = PState.active := by
  cases s <;> simp_all

/-- The Playing branch establishes the invariant outright. -/
theorem ctrlInv_playingUpd (c : Ctrl) (p : String) :
    CtrlInv (playingUpd c p).ctrl := by
  unfold playingUpd CtrlInv
  split <;> simp [addPlayer_ne_nil]

/-- The kasa/ir Paused branch preserves the invariant. -/
theorem ctrlInv_pausedUpdKasa (c : Ctrl) (p : String) (h : CtrlInv c) :
    CtrlInv (pausedUpdKasa c p).ctrl := by
  obtain ⟨h1, h2, h3, h4⟩ := h
  unfold pausedUpdKasa
  split_ifs with hne ht
  · obtain ⟨hs, htn⟩ := h3 (ne_nil_of_discard_ne_nil hne)
    refine ⟨?_, ?_, ?_, ?_⟩ <;> simp [hs, htn, hne]
  · push_neg at hne
    have hsome : c.timer.isSome := Option.ne_none_iff_isSome.mp ht
    refine ⟨?_, ?_, ?_, ?_⟩
    · intro hs
      exact absurd (h1 hs).1 ht
    · intro hs
      exact ⟨hsome, hne⟩
    · intro hpl
      exact absurd hne hpl
    · intro hs
      exact Or.inr hsome
  · push_neg at hne
    refine ⟨?_, ?_, ?_, ?_⟩ <;> simp [hne]

/-- The Stopped branch preserves the invariant. -/
theorem ctrlInv_stoppedUpd (c : Ctrl) (p : String) (h : CtrlInv c) :
    CtrlInv (stoppedUpd c p).ctrl := by
  obtain ⟨h1, h2, h3, h4⟩ := h
  unfold stoppedUpd
  split_ifs with hne hidle hpause htn ht
  · obtain ⟨hs, htnone⟩ := h3 (ne_nil_of_discard_ne_nil hne)
    refine ⟨?_, ?_, ?_, ?_⟩ <;> simp [hs, htnone, hne]
  · push_neg at hne
    obtain ⟨htnone, hpl⟩ := h1 hidle
    refine ⟨?_, ?_, ?_, ?_⟩ <;> simp [hidle, htnone, hne]
  · exact absurd (h2 hpause).1 (by simp [htn])
  · push_neg at hne
    refine ⟨?_, ?_, ?_, ?_⟩ <;> simp [hpause, hne]
  · push_neg at hne
    have hs := pstate_active_of hidle hpause
    have hsome : c.timer.isSome := Option.ne_none_iff_isSome.mp ht
    refine ⟨?_, ?_, ?_, ?_⟩ <;> simp [hs, hne, hsome, hidle, hpause]
  · push_neg at hne
    have hs := pstate_active_of hidle hpause
    refine ⟨?_, ?_, ?_, ?_⟩ <;> simp [hs, hne, hidle, hpause]

/-- Timer expiry preserves the invariant. -/
theorem ctrlInv_fireTimer (c : Ctrl) (h : CtrlInv c) (hs : c.timer.isSome) :
    CtrlInv (fireTimer c) := by
  obtain ⟨h1, h2, h3, h4⟩ := h
  have hpl : c.activePlayers = [] := by
    by_contra hne
    exact absurd (h3 hne).2 (by simp [Option.isSome_iff_ne_none.mp hs])
  unfold fireTimer CtrlInv
  simp [hpl]

/-- Any kasa/ir update call preserves the invariant. -/
theorem ctrlInv_updateKasa (c : Ctrl) (p st : String) (h : CtrlInv c) :
    CtrlInv (updateKasa c p st).ctrl := by
  unfold updateKasa
  split_ifs
  · exact ctrlInv_playingUpd c p
  · exact ctrlInv_pausedUpdKasa c p h
  · exact ctrlInv_stoppedUpd c p h
  · exact h

/-- Every reachable kasa/ir controller state satisfies the invariant. -/
theorem ctrlInv_reachable {s l : Nat} {c : Ctrl} (h : ReachableCtrl s l c) :
    CtrlInv c := by
  induction h with
  | base => exact ⟨fun _ => ⟨rfl, rfl⟩, by simp [initController], by simp [initController],
      by simp [initController]⟩
  | next hr hstep ih =>
      cases hstep with
      | update p st => exact ctrlInv_updateKasa _ _ _ ih
      | fire hsome => exact ctrlInv_fireTimer _ ih hsome

/-- Dispatch of a Playing status in the kasa/ir variant. -/
theorem updateKasa_playing (c : Ctrl) (p : String) :
    updateKasa c p "Playing" = playingUpd c p := rfl

/-- Dispatch of a Paused status in the kasa/ir variant. -/
theorem updateKasa_paused (c : Ctrl) (p : String) :
    updateKasa c p "Paused" = pausedUpdKasa c p := rfl

/-- Dispatch of a Stopped status in the kasa/ir variant. -/
theorem updateKasa_stopped (c : Ctrl) (p : String) :
    updateKasa c p "Stopped" = stoppedUpd c p := rfl

/-- Dispatch of a Playing status in the underscore variant. -/
theorem updateState_playing (c : Ctrl) (p : String) :
    updateState c p "Playing" = playingUpd c p := rfl

/-- Dispatch of a Paused status in the underscore variant. -/
theorem updateState_paused (c : Ctrl) (p : String) :
    updateState c p "Paused" = pausedUpdState c p := rfl

/-- Dispatch of a Stopped status in the underscore variant. -/
theorem updateState_stopped (c : Ctrl) (p : String) :
    updateState c p "Stopped" = stoppedUpd c p := rfl

/-- C1: the claim says every controller constructed from the configuration
surface arms the Paused timer with the configured pause (long) duration and
the Stopped timer with the configured stop (short) duration.  With the
argparse defaults (pause timeout 60 s, stop timeout 5 s), the controller
built by `main` of `mpris-monitor-ir.py` arms a 5-second timer on Paused
and a 60-second timer on Stopped, because the call site passes
`(stop_timeout, pause_timeout)` to the `(long, short)` constructor; the
kasa variant arms 60 s on Paused and 5 s on Stopped as claimed. -/
theorem c1_ir_swapped_debounce_durations :
    irPausedRes.ctrl.timer = some (TimerRef.mk TKind.long 5) ∧
    irStoppedRes.ctrl.timer = some (TimerRef.mk TKind.short 60) ∧
    kasaPausedRes.ctrl.timer = some (TimerRef.mk TKind.long 60) ∧
    kasaStoppedRes.ctrl.timer = some (TimerRef.mk TKind.short 5) := by decide

/-- C2 (amended): in every reachable kasa/ir controller state, Active
implies a non-empty active set or a pending deactivation timer, a non-empty
set implies Active, Idle holds only with no pending timer and an empty set,
and Paused holds only with a pending debounce timer (long or short) and an
empty set. -/
theorem c2_reachable_power_invariant (s l : Nat) (c : Ctrl)
    (h : ReachableCtrl s l c) :
    (c.state = PState.active → c.activePlayers ≠ [] ∨ c.timer.isSome) ∧
    (c.activePlayers ≠ [] → c.state = PState.active) ∧
    (c.state = PState.idle → c.timer = none ∧ c.activePlayers = []) ∧
    (c.state = PState.paused → c.timer.isSome ∧ c.activePlayers = []) := by
  obtain ⟨h1, h2, h3, h4⟩ := ctrlInv_reachable h
  exact ⟨h4, fun hp => (h3 hp).1, h1, h2⟩

/-- C2 witness: the invariant evaluated at the reachable state after one
Playing update. -/
theorem c2_reachable_power_invariant_witness :
    ReachableCtrl 5 60 c2WitnessState ∧
    ((c2WitnessState.state = PState.active →
        c2WitnessState.activePlayers ≠ [] ∨ c2WitnessState.timer.isSome) ∧
     (c2WitnessState.activePlayers ≠ [] → c2WitnessState.state = PState.active) ∧
     (c2WitnessState.state = PState.idle →
        c2WitnessState.timer = none ∧ c2WitnessState.activePlayers = []) ∧
     (c2WitnessState.state = PState.paused →
        c2WitnessState.timer.isSome ∧ c2WitnessState.activePlayers = [])) :=
  have hr : ReachableCtrl 5 60 c2WitnessState :=
    ReachableCtrl.next ReachableCtrl.base (CtrlStep.update _ "p" "Playing")
  ⟨hr, c2_reachable_power_invariant 5 60 c2WitnessState hr⟩

/-- C2 counterexample: the claim as stated is false on the code.  After
Playing, Paused, Stopped (short = 5, long = 60) the controller is reachable,
its PowerState is Paused, yet the pending timer is the short (5 s) one, not
the long debounce timer; and after Playing, Stopped the PowerState is Active
with an empty active set while no activation is in flight (the update calls
have returned), only the short deactivation timer is pending. -/
theorem c2_counterexample :
    ReachableCtrl 5 60 c2PausedWithShortTimer ∧
    c2PausedWithShortTimer.state = PState.paused ∧
    c2PausedWithShortTimer.timer = some (TimerRef.mk TKind.short 5) ∧
    ReachableCtrl 5 60 c2ActiveWithEmptySet ∧
    c2ActiveWithEmptySet.state = PState.active ∧
    c2ActiveWithEmptySet.activePlayers = [] ∧
    c2ActiveWithEmptySet.timer = some (TimerRef.mk TKind.short 5) := by
  refine ⟨?_, by decide, by decide, ?_, by decide, by decide, by decide⟩
  · exact ReachableCtrl.next
      (ReachableCtrl.next
        (ReachableCtrl.next ReachableCtrl.base (CtrlStep.update _ "p" "Playing"))
        (CtrlStep.update _ "p" "Paused"))
      (CtrlStep.update _ "p" "Stopped")
  · exact ReachableCtrl.next
      (ReachableCtrl.next ReachableCtrl.base (CtrlStep.update _ "p" "Playing"))
      (CtrlStep.update _ "p" "Stopped")

/-- C3: the claim says at most one debounce timer is ever outstanding
because every arm first cancels the previous timer.  In the underscore
variant the sequence Playing, Paused, Paused arms a second long timer in
the Paused branch without cancelling the pending one: afterwards one
orphaned timer plus the referenced timer are both live. -/
theorem c3_orphaned_live_timer :
    (updateState (updateState (initController 5 60) "p" "Playing").ctrl "p" "Paused").ctrl.timer
        = some (TimerRef.mk TKind.long 60) ∧
    (updateState (updateState (initController 5 60) "p" "Playing").ctrl "p" "Paused").err = none ∧
    c3DoublePaused.orphans = 1 ∧
    c3DoublePaused.timer = some (TimerRef.mk TKind.long 60) ∧
    liveTimers c3DoublePaused = 2 := by decide

/-- C4: for every controller state and player, a Playing update adds the
player to the active set, cancels and clears any pending timer (no orphan
is created), leaves the controller Active, raises no error, and runs
`activate()` exactly once if the prior state was Idle and not at all
otherwise — in both the kasa/ir and the underscore variants. -/
theorem c4_playing_update (c : Ctrl) (p : String) :
    updateKasa c p "Playing" =
      UpdRes.mk
        { c with
            activePlayers := addPlayer p c.activePlayers,
            state := PState.active,
            timer := none,
            activations := c.activations + (if c.state = PState.idle then 1 else 0) }
        none ∧
    updateState c p "Playing" =
      UpdRes.mk
        { c with
            activePlayers := addPlayer p c.activePlayers,
            state := PState.active,
            timer := none,
            activations := c.activations + (if c.state = PState.idle then 1 else 0) }
        none := by
  rw [updateKasa_playing, updateState_playing]
  unfold playingUpd
  split_ifs with h <;> simp [h]

/-- C5 (amended): for an already-inactive player, a second Stopped update
never adds a deactivate call; if the state is not Paused the second call
returns exactly the first call's result (full idempotence); but from the
Paused state (timer pending, empty set) each Stopped call cancels the
pending timer and re-arms the short timer, so the second call performs one
additional timer arm. -/
theorem c5_stopped_twice (c : Ctrl) (p : String) (hp : p ∉ c.activePlayers) :
    (updateKasa (updateKasa c p "Stopped").ctrl p "Stopped").ctrl.deactivations
        = (updateKasa c p "Stopped").ctrl.deactivations ∧
    (c.state ≠ PState.paused →
      updateKasa (updateKasa c p "Stopped").ctrl p "Stopped" = updateKasa c p "Stopped") ∧
    (c.state = PState.paused → c.timer.isSome → c.activePlayers = [] →
      updateKasa (updateKasa c p "Stopped").ctrl p "Stopped"
        = UpdRes.mk
            { (updateKasa c p "Stopped").ctrl with
                arms := (updateKasa c p "Stopped").ctrl.arms + 1 }
            none) := by
  obtain ⟨sT, lT, st, tm, pl, orp, act, de, ar⟩ := c
  have hd : discardPlayer p pl = pl := discard_of_not_mem hp
  simp only [updateKasa_stopped]
  by_cases hne : pl = []
  · by_cases hidle : st = PState.idle
    · simp [stoppedUpd, hd, hne, hidle, discard_nil]
    · by_cases hpa : st = PState.paused
      · by_cases ht : tm = none
        · simp [stoppedUpd, hd, hne, hidle, hpa, ht, discard_nil]
        · simp [stoppedUpd, hd, hne, hidle, hpa, ht, discard_nil]
      · by_cases ht : tm = none
        · simp [stoppedUpd, hd, hne, hidle, hpa, ht, discard_nil]
        · simp [stoppedUpd, hd, hne, hidle, hpa, ht, discard_nil]
  · simp [stoppedUpd, hd, hne, discard_nil]

/-- C5 witness: the amended statement evaluated at a Paused-state
controller with an absent player. -/
theorem c5_stopped_twice_witness :
    ("p" ∉ c5Sample.activePlayers) ∧
    ((updateKasa (updateKasa c5Sample "p" "Stopped").ctrl "p" "Stopped").ctrl.deactivations
        = (updateKasa c5Sample "p" "Stopped").ctrl.deactivations ∧
     (c5Sample.state ≠ PState.paused →
       updateKasa (updateKasa c5Sample "p" "Stopped").ctrl "p" "Stopped"
          = updateKasa c5Sample "p" "Stopped") ∧
     (c5Sample.state = PState.paused → c5Sample.timer.isSome → c5Sample.activePlayers = [] →
       updateKasa (updateKasa c5Sample "p" "Stopped").ctrl "p" "Stopped"
          = UpdRes.mk
              { (updateKasa c5Sample "p" "Stopped").ctrl with
                  arms := (updateKasa c5Sample "p" "Stopped").ctrl.arms + 1 }
              none)) :=
  ⟨by decide, c5_stopped_twice c5Sample "p" (by decide)⟩

/-- C5 counterexample: the claim as stated is false on the code.  In the
reachable Paused state after Playing then Paused, the player is already
inactive, yet the second consecutive Stopped update arms one more timer
than the first (the arm counter rises from 2 to 3), because the Stopped
branch leaves the state field at PAUSED and therefore cancels and re-arms
the short timer on every call. -/
theorem c5_counterexample :
    ReachableCtrl 5 60 c5PausedState ∧
    ("q" ∉ c5PausedState.activePlayers) ∧
    (updateKasa c5PausedState "q" "Stopped").ctrl.arms = 2 ∧
    (updateKasa (updateKasa c5PausedState "q" "Stopped").ctrl "q" "Stopped").ctrl.arms = 3 := by
  refine ⟨?_, by decide, by decide, by decide⟩
  exact ReachableCtrl.next
    (ReachableCtrl.next ReachableCtrl.base (CtrlStep.update _ "q" "Playing"))
    (CtrlStep.update _ "q" "Paused")

/-- C6: with a single Active player, Paused arms the long timer, a Stopped
before expiry cancels it and arms the short timer instead, exactly one
timer is live afterwards, and firing it runs `deactivate()` exactly once
for the cycle, leaving no live timer; the underscore variant takes the same
steps. -/
theorem c6_pause_then_stop_tightening (c : Ctrl) (p : String)
    (hs : c.state = PState.active) (hp : c.activePlayers = [p])
    (ht : c.timer = none) (ho : c.orphans = 0) :
    (updateKasa c p "Paused").err = none ∧
    (updateKasa c p "Paused").ctrl.timer = some (TimerRef.mk TKind.long c.longTimeout) ∧
    (updateKasa (updateKasa c p "Paused").ctrl p "Stopped").err = none ∧
    (updateKasa (updateKasa c p "Paused").ctrl p "Stopped").ctrl.timer
        = some (TimerRef.mk TKind.short c.shortTimeout) ∧
    liveTimers (updateKasa (updateKasa c p "Paused").ctrl p "Stopped").ctrl = 1 ∧
    (fireTimer (updateKasa (updateKasa c p "Paused").ctrl p "Stopped").ctrl).deactivations
        = c.deactivations + 1 ∧
    liveTimers (fireTimer (updateKasa (updateKasa c p "Paused").ctrl p "Stopped").ctrl) = 0 ∧
    updateState (updateState c p "Paused").ctrl p "Stopped"
        = updateKasa (updateKasa c p "Paused").ctrl p "Stopped" := by
  obtain ⟨sT, lT, st, tm, pl, orp, act, de, ar⟩ := c
  simp only at hs hp ht ho
  subst hs hp ht ho
  have hd : discardPlayer p [p] = [] := by
    simp [discardPlayer]
  simp [updateKasa_paused, updateKasa_stopped, updateState_paused, updateState_stopped,
        pausedUpdKasa, pausedUpdState, stoppedUpd, liveTimers, fireTimer, hd, discard_nil]

/-- C6 witness: the pause-to-stop tightening evaluated at a concrete Active
single-player controller (short = 5, long = 60). -/
theorem c6_pause_then_stop_tightening_witness :
    (c6Sample.state = PState.active ∧ c6Sample.activePlayers = ["p"] ∧
     c6Sample.timer = none ∧ c6Sample.orphans = 0) ∧
    ((updateKasa c6Sample "p" "Paused").err = none ∧
     (updateKasa c6Sample "p" "Paused").ctrl.timer
        = some (TimerRef.mk TKind.long c6Sample.longTimeout) ∧
     (updateKasa (updateKasa c6Sample "p" "Paused").ctrl "p" "Stopped").err = none ∧
     (updateKasa (updateKasa c6Sample "p" "Paused").ctrl "p" "Stopped").ctrl.timer
        = some (TimerRef.mk TKind.short c6Sample.shortTimeout) ∧
     liveTimers (updateKasa (updateKasa c6Sample "p" "Paused").ctrl "p" "Stopped").ctrl = 1 ∧
     (fireTimer (updateKasa (updateKasa c6Sample "p" "Paused").ctrl "p" "Stopped").ctrl).deactivations
        = c6Sample.deactivations + 1 ∧
     liveTimers (fireTimer (updateKasa (updateKasa c6Sample "p" "Paused").ctrl "p" "Stopped").ctrl) = 0 ∧
     updateState (updateState c6Sample "p" "Paused").ctrl "p" "Stopped"
        = updateKasa (updateKasa c6Sample "p" "Paused").ctrl "p" "Stopped") :=
  ⟨⟨rfl, rfl, rfl, rfl⟩, c6_pause_then_stop_tightening c6Sample "p" rfl rfl rfl rfl⟩

/-- C7: with two distinct Active players and no timer, the first player
stopping only removes it from the active set — state, timer, and the
activation/deactivation counters are untouched and no error occurs, in both
variants; only when the second player also stops does the short timer arm
(one timer start, state still Active, no deactivate yet). -/
theorem c7_two_player_frame (c : Ctrl) (a b : String)
    (hab : a ≠ b) (hp : c.activePlayers = [a, b])
    (hs : c.state = PState.active) (ht : c.timer = none) :
    updateKasa c a "Stopped" = UpdRes.mk { c with activePlayers := [b] } none ∧
    updateState c a "Stopped" = UpdRes.mk { c with activePlayers := [b] } none ∧
    (updateKasa (updateKasa c a "Stopped").ctrl b "Stopped").err = none ∧
    (updateKasa (updateKasa c a "Stopped").ctrl b "Stopped").ctrl.timer
        = some (TimerRef.mk TKind.short c.shortTimeout) ∧
    (updateKasa (updateKasa c a "Stopped").ctrl b "Stopped").ctrl.arms = c.arms + 1 ∧
    (updateKasa (updateKasa c a "Stopped").ctrl b "Stopped").ctrl.activations
        = c.activations ∧
    (updateKasa (updateKasa c a "Stopped").ctrl b "Stopped").ctrl.deactivations
        = c.deactivations := by
  obtain ⟨sT, lT, st, tm, pl, orp, act, de, ar⟩ := c
  simp only at hp hs ht
  subst hp hs ht
  have hba : b ≠ a := Ne.symm hab
  have hd1 : discardPlayer a [a, b] = [b] := by
    simp [discardPlayer, hba]
  have hd2 : discardPlayer b [b] = [] := by
    simp [discardPlayer]
  simp [updateKasa_stopped, updateState_stopped, stoppedUpd, hd1, hd2]

/-- C7 witness: the two-player frame property evaluated at a concrete
Active controller holding players playerA and playerB. -/
theorem c7_two_player_frame_witness :
    (c7SampleA ≠ c7SampleB ∧ c7Sample.activePlayers = [c7SampleA, c7SampleB] ∧
     c7Sample.state = PState.active ∧ c7Sample.timer = none) ∧
    (updateKasa c7Sample c7SampleA "Stopped"
        = UpdRes.mk { c7Sample with activePlayers := [c7SampleB] } none ∧
     updateState c7Sample c7SampleA "Stopped"
        = UpdRes.mk { c7Sample with activePlayers := [c7SampleB] } none ∧
     (updateKasa (updateKasa c7Sample c7SampleA "Stopped").ctrl c7SampleB "Stopped").err = none ∧
     (updateKasa (updateKasa c7Sample c7SampleA "Stopped").ctrl c7SampleB "Stopped").ctrl.timer
        = some (TimerRef.mk TKind.short c7Sample.shortTimeout) ∧
     (updateKasa (updateKasa c7Sample c7SampleA "Stopped").ctrl c7SampleB "Stopped").ctrl.arms
        = c7Sample.arms + 1 ∧
     (updateKasa (updateKasa c7Sample c7SampleA "Stopped").ctrl c7SampleB "Stopped").ctrl.activations
        = c7Sample.activations ∧
     (updateKasa (updateKasa c7Sample c7SampleA "Stopped").ctrl c7SampleB "Stopped").ctrl.deactivations
        = c7Sample.deactivations) :=
  ⟨⟨by decide, rfl, rfl, rfl⟩,
    c7_two_player_frame c7Sample c7SampleA c7SampleB (by decide) rfl rfl rfl⟩

/-- C8 (amended): from the Idle state (empty set, no timer), a Paused
update is a no-op only in the underscore variant (its Paused branch checks
for Idle); in the kasa/ir variant the same update instead arms the long
debounce timer and moves the controller to PAUSED. -/
theorem c8_paused_from_idle (c : Ctrl) (p : String)
    (hs : c.state = PState.idle) (ht : c.timer = none) (hp : c.activePlayers = []) :
    updateState c p "Paused" = UpdRes.mk c none ∧
    updateKasa c p "Paused" =
      UpdRes.mk
        { c with
            timer := some (TimerRef.mk TKind.long c.longTimeout),
            arms := c.arms + 1,
            state := PState.paused }
        none := by
  obtain ⟨sT, lT, st, tm, pl, orp, act, de, ar⟩ := c
  simp only at hs ht hp
  subst hs ht hp
  simp [updateState_paused, updateKasa_paused, pausedUpdState, pausedUpdKasa, discard_nil]

/-- C8 witness: the amended statement evaluated at the freshly constructed
Idle controller (short = 5, long = 60). -/
theorem c8_paused_from_idle_witness :
    ((initController 5 60).state = PState.idle ∧ (initController 5 60).timer = none ∧
     (initController 5 60).activePlayers = []) ∧
    (updateState (initController 5 60) "p" "Paused" = UpdRes.mk (initController 5 60) none ∧
     updateKasa (initController 5 60) "p" "Paused" =
        UpdRes.mk
          { initController 5 60 with
              timer := some (TimerRef.mk TKind.long (initController 5 60).longTimeout),
              arms := (initController 5 60).arms + 1,
              state := PState.paused }
          none) :=
  ⟨⟨rfl, rfl, rfl⟩, c8_paused_from_idle (initController 5 60) "p" rfl rfl rfl⟩

/-- C8 counterexample: the claim as stated is false on the code of
`mpris-monitor-kasa.py`.  From the freshly constructed Idle controller, a
Paused update is not a no-op: the resulting state is PAUSED with the
60-second long timer armed, so the controller changed. -/
theorem c8_counterexample :
    (initController 5 60).state = PState.idle ∧
    (initController 5 60).timer = none ∧
    (initController 5 60).activePlayers = [] ∧
    (updateKasa (initController 5 60) "p" "Paused").ctrl.state = PState.paused ∧
    (updateKasa (initController 5 60) "p" "Paused").ctrl.timer
        = some (TimerRef.mk TKind.long 60) ∧
    (updateKasa (initController 5 60) "p" "Paused").ctrl ≠ initController 5 60 := by decide

/-- C9 (amended): a status value outside Playing, Paused and Stopped leaves
the controller completely unchanged in both variants, but it is silently
ignored — no error of any kind is reported to the caller (the update falls
through the if/elif chain, and no InvalidStatus error exists in the code). -/
theorem c9_unknown_status_ignored (c : Ctrl) (p status : String)
    (h1 : status ≠ "Playing") (h2 : status ≠ "Paused") (h3 : status ≠ "Stopped") :
    updateKasa c p status = UpdRes.mk c none ∧
    updateState c p status = UpdRes.mk c none := by
  constructor <;> simp [updateKasa, updateState, h1, h2, h3]

/-- C9 witness: the amended statement evaluated at the fresh controller and
the unrecognized status Foo. -/
theorem c9_unknown_status_ignored_witness :
    ("Foo" : String) ≠ "Playing" ∧ ("Foo" : String) ≠ "Paused" ∧ ("Foo" : String) ≠ "Stopped" ∧
    (updateKasa (initController 5 60) "p" "Foo" = UpdRes.mk (initController 5 60) none ∧
     updateState (initController 5 60) "p" "Foo" = UpdRes.mk (initController 5 60) none) :=
  ⟨by decide, by decide, by decide,
    c9_unknown_status_ignored (initController 5 60) "p" "Foo" (by decide) (by decide) (by decide)⟩

/-- C9 counterexample: the claim as stated is false on the code.  An update
with the unrecognized status NotAStatus returns without any error — there
is no InvalidStatus rejection reported to the caller — although the state
is indeed unchanged. -/
theorem c9_counterexample :
    (updateKasa (initController 5 60) "p" "NotAStatus").err = none ∧
    (updateKasa (initController 5 60) "p" "NotAStatus").ctrl = initController 5 60 := by decide

/-- C10: the sequence Playing, Paused, Paused from a single player reaches
the Paused state with the long timer pending; the second Paused update then
runs the Paused branch with a non-None timer, so the
`assert(self.timer == None)` guard fails and the call raises AssertionError
instead of acting as a no-op (the controller state itself is unchanged by
the failed call).  The Paused-branch assertion is therefore not valid over
all reachable states. -/
theorem c10_second_paused_assertion_failure :
    ReachableCtrl 5 60 c10AfterPlayingPaused.ctrl ∧
    c10AfterPlayingPaused.ctrl.timer = some (TimerRef.mk TKind.long 60) ∧
    c10SecondPaused.err = some PyErr.assertionError ∧
    c10SecondPaused.ctrl = c10AfterPlayingPaused.ctrl := by
  refine ⟨?_, by decide, by decide, by decide⟩
  exact ReachableCtrl.next
    (ReachableCtrl.next ReachableCtrl.base (CtrlStep.update _ "p" "Playing"))
    (CtrlStep.update _ "p" "Paused")

end MprisMonitor
